import Mathlib

/-!
Verification of the rustc-wrapper core of cargo-llvm-cov (`src/wrapper.rs`).

Shallow embedding conventions:
* An OS-native string (`OsString`) is a list of bytes, modelled as `List Nat`.
* The process environment is a read-only map `Env := String → Option (List Nat)`.
* The operating system's ability to start the delegate is modelled by a
  function `spawn : delegate path → final args → SpawnOutcome`; `spawned code`
  is a delegate that ran and exited with status `code`, `failed osError` is a
  spawn failure carrying the OS error.
* `try_run_wrapper` returns a `RunResult` recording the process exit code, the
  spawn request that was issued (if any), the debug diagnostic lines emitted,
  and the wrapper-level error (if any).  The `error` field doubles as the
  diagnostic line printed by `run_wrapper` on the error stream: the Rust code
  prints exactly one `cargo-llvm-cov wrapper error: …` line iff the result is
  an `Err`, and exits 1 in that case, 0 otherwise.
-/

/-- The process environment: a map from variable name to optional byte-string
value, mirroring `std::env::var_os`. -/
def Env : Type := String → Option (List Nat)

/-- Outcome of attempting to spawn the delegate: either the delegate ran and
exited with a numeric status code, or the OS failed to start it with an
OS error code. -/
inductive SpawnOutcome where
  | spawned (code : Nat)
  | failed (osError : Nat)
deriving DecidableEq, Repr

/-- The wrapper's internal error taxonomy (in the Rust source these are
`anyhow` errors distinguished by their message/context). -/
inductive WrapperError where
  | insufficientArguments
  | invalidFlagEncoding
  | delegateSpawnError (path : List Nat) (osError : Nat)
  | delegateFailed (code : Nat)
deriving DecidableEq, Repr

/-- One debug diagnostic line, as printed when `CARGO_LLVM_COV_WRAPPER_DEBUG`
is set: crate name, package name, presence of `CARGO_PRIMARY_PACKAGE`, and the
gate's instrumentation decision. -/
structure DebugLine where
  crateName : List Nat
  pkgName : List Nat
  primary : Bool
  instrument : Bool
deriving DecidableEq, Repr

/-- Observable result of one wrapper invocation: exit code (0 or 1), the spawn
request issued to the OS (delegate path and final argument vector), the debug
lines emitted, and the wrapper-level error. -/
structure RunResult where
  exit : Nat
  spawnCall : Option (List Nat × List (List Nat))
  debugLines : List DebugLine
  error : Option WrapperError
deriving DecidableEq, Repr

/-- Embeds `should_instrument` of `src/wrapper.rs`: the instrumentation gate,
a pure predicate over the environment. -/
def should_instrument (env : Env) : Bool :=
  match env "CARGO_LLVM_COV" with
  | none => false
  | some _ =>
    if (env "CARGO_CRATE_NAME").isNone && (env "CARGO_PKG_NAME").isNone then
      false
    else
      match env "CARGO_LLVM_COV_TARGET_ONLY", env "TARGET" with
      | some coverage_target, some target =>
        if target ≠ coverage_target then false else true
      | some _, none => true
      | none, _ => true

/-- Embeds `bytes.split(|&b| b == b' ')` of the Rust standard library
(`slice::split`): splitting a byte list on every occurrence of `sep`,
producing `n + 1` chunks for `n` separators. -/
def splitBytes (sep : Nat) : List Nat → List (List Nat)
  | [] => [[]]
  | b :: rest =>
    if b = sep then [] :: splitBytes sep rest
    else
      match splitBytes sep rest with
      | [] => [[b]]
      | c :: cs => (b :: c) :: cs

/-- Embeds `add_coverage_flags` of `src/wrapper.rs`, Unix branch: read
`CARGO_LLVM_COV_FLAGS`; if absent, leave the arguments unchanged; if present,
split its bytes on the ASCII space byte, keep the non-empty chunks in order,
and prepend them to the arguments. -/
def add_coverage_flags (env : Env) (args : List (List Nat)) :
    Except WrapperError (List (List Nat)) :=
  match env "CARGO_LLVM_COV_FLAGS" with
  | none => .ok args
  | some cov_flags =>
    let flags := (splitBytes 32 cov_flags).filter (fun c => !c.isEmpty)
    .ok (flags ++ args)

/-- Embeds `try_run_wrapper` of `src/wrapper.rs` as a function of the argument
vector, the environment, and the OS spawn behaviour, returning the observable
`RunResult` (with `run_wrapper`'s error-to-exit-code mapping already applied:
exit 0 on `Ok`, exit 1 plus one diagnostic on `Err`). -/
def try_run_wrapper (argv : List (List Nat)) (env : Env)
    (spawn : List Nat → List (List Nat) → SpawnOutcome) : RunResult :=
  match argv with
  | [] => ⟨1, none, [], some .insufficientArguments⟩
  | [_] => ⟨1, none, [], some .insufficientArguments⟩
  | _ :: rustc :: rustc_args =>
    let si := should_instrument env
    let dbg : List DebugLine :=
      if (env "CARGO_LLVM_COV_WRAPPER_DEBUG").isSome then
        match env "CARGO_CRATE_NAME", env "CARGO_PKG_NAME" with
        | some crate_name, some pkg_name =>
          [⟨crate_name, pkg_name, (env "CARGO_PRIMARY_PACKAGE").isSome, si⟩]
        | some _, none => []
        | none, _ => []
      else []
    match (if si then add_coverage_flags env rustc_args else .ok rustc_args) with
    | .error e => ⟨1, none, dbg, some e⟩
    | .ok finalArgs =>
      match spawn rustc finalArgs with
      | .failed osError =>
        ⟨1, some (rustc, finalArgs), dbg, some (.delegateSpawnError rustc osError)⟩
      | .spawned code =>
        if code = 0 then ⟨0, some (rustc, finalArgs), dbg, none⟩
        else ⟨1, some (rustc, finalArgs), dbg, some (.delegateFailed code)⟩

/-- Is `b` a UTF-8 continuation byte (`0x80..=0xBF`)? -/
def isCont (b : Nat) : Bool := decide (0x80 ≤ b ∧ b ≤ 0xBF)

/-- Is `b` in the inclusive range `lo..=hi`? -/
def inRange (lo hi b : Nat) : Bool := decide (lo ≤ b ∧ b ≤ hi)

/-- UTF-8 decoding of a byte list into a list of Unicode scalar values,
following the validity rules that Rust's `str`/`OsStr::to_str` enforce
(RFC 3629: shortest form, no surrogates, max U+10FFFF); `none` on any
invalid byte sequence. -/
def utf8Decode : List Nat → Option (List Nat)
  | [] => some []
  | b :: r =>
    if b < 0x80 then (utf8Decode r).map (b :: ·)
    else if b < 0xC2 then none
    else if b ≤ 0xDF then
      match r with
      | c1 :: r1 =>
        if isCont c1 then
          (utf8Decode r1).map (((b - 0xC0) * 64 + (c1 - 0x80)) :: ·)
        else none
      | [] => none
    else if b ≤ 0xEF then
      match r with
      | c1 :: c2 :: r2 =>
        if (if b = 0xE0 then inRange 0xA0 0xBF c1
            else if b = 0xED then inRange 0x80 0x9F c1
            else isCont c1) && isCont c2 then
          (utf8Decode r2).map
            (((b - 0xE0) * 4096 + (c1 - 0x80) * 64 + (c2 - 0x80)) :: ·)
        else none
      | [_] => none
      | [] => none
    else if b ≤ 0xF4 then
      match r with
      | c1 :: c2 :: c3 :: r3 =>
        if (if b = 0xF0 then inRange 0x90 0xBF c1
            else if b = 0xF4 then inRange 0x80 0x8F c1
            else isCont c1) && isCont c2 && isCont c3 then
          (utf8Decode r3).map
            (((b - 0xF0) * 262144 + (c1 - 0x80) * 4096 + (c2 - 0x80) * 64
              + (c3 - 0x80)) :: ·)
        else none
      | [_, _] => none
      | [_] => none
      | [] => none
    else none

/-- UTF-8 encoding of one Unicode scalar value. -/
def utf8Encode (c : Nat) : List Nat :=
  if c < 0x80 then [c]
  else if c < 0x800 then [0xC0 + c / 64, 0x80 + c % 64]
  else if c < 0x10000 then
    [0xE0 + c / 4096, 0x80 + (c / 64) % 64, 0x80 + c % 64]
  else
    [0xF0 + c / 262144, 0x80 + (c / 4096) % 64, 0x80 + (c / 64) % 64,
      0x80 + c % 64]

/-- Rust's `char::is_whitespace`: the Unicode `White_Space` property, on
scalar values. -/
def rustIsWhitespace (c : Nat) : Bool :=
  inRange 0x09 0x0D c || c == 0x20 || c == 0x85 || c == 0xA0 || c == 0x1680
    || inRange 0x2000 0x200A c || c == 0x2028 || c == 0x2029 || c == 0x202F
    || c == 0x205F || c == 0x3000

/-- Embeds `add_coverage_flags` of `src/wrapper.rs`, non-Unix branch: the
flag string must be valid UTF-8 (`OsStr::to_str`), failing with the
invalid-encoding error otherwise; on success it is split on Unicode
whitespace (`str::split_whitespace`), empty tokens discarded, each token
re-encoded as an OS string and prepended to the arguments. -/
def add_coverage_flags_nonunix (env : Env) (args : List (List Nat)) :
    Except WrapperError (List (List Nat)) :=
  match env "CARGO_LLVM_COV_FLAGS" with
  | none => .ok args
  | some cov_flags =>
    match utf8Decode cov_flags with
    | none => .error .invalidFlagEncoding
    | some chars =>
      let flags := ((chars.splitOnP rustIsWhitespace).filter
        (fun t => !t.isEmpty)).map (fun t => (t.map utf8Encode).flatten)
      .ok (flags ++ args)

/-- Written from the spec's words (§4.2): the instrumentation gate as the
short-circuiting decision sequence — false if the session-active marker is
absent; else false if neither crate-name nor package-name is present; else
false if restrict-to-target and current-target are both present and differ;
otherwise true. -/
def gateSpec (env : Env) : Bool :=
  if (env "CARGO_LLVM_COV").isNone then false
  else if (env "CARGO_CRATE_NAME").isNone && (env "CARGO_PKG_NAME").isNone then
    false
  else if (env "CARGO_LLVM_COV_TARGET_ONLY").isSome && (env "TARGET").isSome
      && decide (env "CARGO_LLVM_COV_TARGET_ONLY" ≠ env "TARGET") then
    false
  else true

/-- Written from the spec's words (§4.3): tokenize the flag string on runs of
the ASCII space byte, discarding empty tokens, preserving relative order. -/
def specTokens (v : List Nat) : List (List Nat) :=
  (v.splitOn 32).filter (fun t => !t.isEmpty)

/-- Is an `Except` result a success? -/
def exceptIsOk {ε α : Type} : Except ε α → Bool
  | .ok _ => true
  | .error _ => false

/-- The flag tokens the Unix branch injects: empty when `CARGO_LLVM_COV_FLAGS`
is absent, else the non-empty space-separated chunks of its value. -/
def covFlagsTokens (env : Env) : List (List Nat) :=
  match env "CARGO_LLVM_COV_FLAGS" with
  | none => []
  | some cov_flags => (splitBytes 32 cov_flags).filter (fun c => !c.isEmpty)

/-- The debug lines `try_run_wrapper` emits, as a function of the
environment. -/
def debugLinesOf (env : Env) : List DebugLine :=
  if (env "CARGO_LLVM_COV_WRAPPER_DEBUG").isSome then
    match env "CARGO_CRATE_NAME", env "CARGO_PKG_NAME" with
    | some crate_name, some pkg_name =>
      [⟨crate_name, pkg_name, (env "CARGO_PRIMARY_PACKAGE").isSome,
        should_instrument env⟩]
    | some _, none => []
    | none, _ => []
  else []

theorem add_coverage_flags_eq (env : Env) (args : List (List Nat)) :
    add_coverage_flags env args = .ok (covFlagsTokens env ++ args) := by
  unfold add_coverage_flags covFlagsTokens
  cases env "CARGO_LLVM_COV_FLAGS" <;> simp


/-- The tail of the wrapper run once the delegate path and final argument
vector are fixed: issue the spawn request and map the outcome to the
wrapper's own exit status and error, exactly as the tail of
`try_run_wrapper` in `src/wrapper.rs` does. -/
def runStep (rustc : List Nat) (fargs : List (List Nat))
    (dbg : List DebugLine)
    (spawn : List Nat → List (List Nat) → SpawnOutcome) : RunResult :=
  match spawn rustc fargs with
  | .failed osError =>
    ⟨1, some (rustc, fargs), dbg, some (.delegateSpawnError rustc osError)⟩
  | .spawned code =>
    if code = 0 then ⟨0, some (rustc, fargs), dbg, none⟩
    else ⟨1, some (rustc, fargs), dbg, some (.delegateFailed code)⟩

/-- Shape of `try_run_wrapper` on a well-formed argument vector: the final
argument vector is the original one, flag-extended exactly when the gate
decides true, and the rest of the run is `runStep`. -/
theorem try_run_wrapper_cons (self rustc : List Nat) (rest : List (List Nat))
    (env : Env) (spawn : List Nat → List (List Nat) → SpawnOutcome) :
    try_run_wrapper (self :: rustc :: rest) env spawn =
      runStep rustc
        (if should_instrument env then covFlagsTokens env ++ rest else rest)
        (debugLinesOf env) spawn := by
  unfold try_run_wrapper runStep debugLinesOf
  cases hsi : should_instrument env <;> simp [add_coverage_flags_eq]

theorem runStep_spawnCall (rustc : List Nat) (fargs : List (List Nat))
    (dbg : List DebugLine)
    (spawn : List Nat → List (List Nat) → SpawnOutcome) :
    (runStep rustc fargs dbg spawn).spawnCall = some (rustc, fargs) := by
  unfold runStep
  cases spawn rustc fargs with
  | failed osError => rfl
  | spawned code => by_cases hc : code = 0 <;> simp [hc]

theorem runStep_debugLines (rustc : List Nat) (fargs : List (List Nat))
    (dbg : List DebugLine)
    (spawn : List Nat → List (List Nat) → SpawnOutcome) :
    (runStep rustc fargs dbg spawn).debugLines = dbg := by
  unfold runStep
  cases spawn rustc fargs with
  | failed osError => rfl
  | spawned code => by_cases hc : code = 0 <;> simp [hc]

theorem splitBytes_ne_nil (sep : Nat) (l : List Nat) :
    splitBytes sep l ≠ [] := by
  induction l with
  | nil => simp [splitBytes]
  | cons b r ih =>
    unfold splitBytes
    by_cases hb : b = sep
    · simp [hb]
    · simp only [hb, if_false]
      cases h : splitBytes sep r <;> simp

theorem splitBytes_eq_splitOn (sep : Nat) (l : List Nat) :
    splitBytes sep l = l.splitOn sep := by
  induction l with
  | nil => simp [splitBytes, List.splitOn, List.splitOnP_nil]
  | cons b r ih =>
    unfold splitBytes
    rw [List.splitOn, List.splitOnP_cons]
    by_cases hb : b = sep
    · simp [hb, ih, List.splitOn]
    · simp only [hb, if_false, beq_iff_eq, if_neg hb]
      cases h : splitBytes sep r with
      | nil => exact absurd h (splitBytes_ne_nil sep r)
      | cons c cs =>
        rw [← List.splitOn, ← ih, h]
        simp [List.modifyHead]

/-- C2: for every environment, the instrumentation gate returns the value of
the short-circuiting decision sequence of the spec — false if the
session-active marker is absent; else false if neither the crate-name nor the
package-name variable is present; else false if the restrict-to-target and
current-target variables are both present and differ; otherwise true. -/
theorem gate_decision_sequence (env : Env) :
    should_instrument env = gateSpec env := by
  unfold should_instrument gateSpec
  cases h0 : env "CARGO_LLVM_COV" <;>
    cases h1 : env "CARGO_CRATE_NAME" <;>
      cases h2 : env "CARGO_PKG_NAME" <;>
        cases h3 : env "CARGO_LLVM_COV_TARGET_ONLY" <;>
          cases h4 : env "TARGET"
  all_goals try rfl
  all_goals
    rename_i ct t
  all_goals
    by_cases hab : t = ct
  all_goals
    first
    | (have hba : ct ≠ t := fun h => hab h.symm
       simp [hab, hba])
    | simp [hab]

/-- C4: after a successful spawn, the wrapper's exit status is 0 iff the
delegate's exit status is 0, any non-zero delegate exit maps to wrapper
exit 1, and in particular delegate exit 137 maps to wrapper exit 1. -/
theorem exit_success_iff_delegate_success (env : Env) (self rustc : List Nat)
    (rest : List (List Nat)) (code : Nat) :
    (try_run_wrapper (self :: rustc :: rest) env
        (fun _ _ => .spawned code)).exit = (if code = 0 then 0 else 1) ∧
    (try_run_wrapper (self :: rustc :: rest) env
        (fun _ _ => .spawned 137)).exit = 1 := by
  rw [try_run_wrapper_cons, try_run_wrapper_cons]
  unfold runStep
  constructor
  · by_cases h : code = 0 <;> simp [h]
  · simp

/-- C5: an invocation whose argument vector is just the program's own name
fails with `insufficientArguments`: exit status 1, a diagnostic (the `error`
field), no spawn request issued, and no debug lines. -/
theorem insufficient_arguments_failure (self : List Nat) (env : Env)
    (spawn : List Nat → List (List Nat) → SpawnOutcome) :
    try_run_wrapper [self] env spawn =
      ⟨1, none, [], some .insufficientArguments⟩ := rfl

/-- C6: when the OS cannot start the delegate, the wrapper fails with
`delegateSpawnError` carrying the delegate path and the underlying OS error,
and reports it as its own failure: exit status 1 with the error as its
diagnostic, never swallowed. -/
theorem spawn_failure_reported (env : Env) (self rustc : List Nat)
    (rest : List (List Nat)) (osError : Nat) :
    (try_run_wrapper (self :: rustc :: rest) env
        (fun _ _ => .failed osError)).error =
      some (.delegateSpawnError rustc osError) ∧
    (try_run_wrapper (self :: rustc :: rest) env
        (fun _ _ => .failed osError)).exit = 1 := by
  rw [try_run_wrapper_cons]
  exact ⟨rfl, rfl⟩

/-- C1: whenever the gate decides false — in particular whenever the
session-active marker `CARGO_LLVM_COV` is absent — the final argument vector
passed to the delegate is exactly the original argument vector. -/
theorem identity_when_inert (env : Env)
    (spawn : List Nat → List (List Nat) → SpawnOutcome)
    (self rustc : List Nat) (rest : List (List Nat)) :
    (env "CARGO_LLVM_COV" = none → should_instrument env = false) ∧
    (should_instrument env = false →
      (try_run_wrapper (self :: rustc :: rest) env spawn).spawnCall =
        some (rustc, rest)) := by
  constructor
  · intro h
    unfold should_instrument
    rw [h]
  · intro h
    rw [try_run_wrapper_cons, runStep_spawnCall, h]
    simp

/-- The empty environment: every variable absent. -/
def envEmpty : Env := fun _ => none

/-- A spawn behaviour whose delegate always starts and exits 0. -/
def spawnOk : List Nat → List (List Nat) → SpawnOutcome :=
  fun _ _ => .spawned 0

/-- C1 witness at a concrete invocation with an empty environment. -/
theorem identity_when_inert_witness :
    should_instrument envEmpty = false ∧
    (try_run_wrapper [[119], [99], [45, 79]] envEmpty spawnOk).spawnCall =
      some ([99], [[45, 79]]) :=
  ⟨(identity_when_inert envEmpty spawnOk [119] [99] [[45, 79]]).1 rfl,
   (identity_when_inert envEmpty spawnOk [119] [99] [[45, 79]]).2 rfl⟩

/-- C3: when the gate decides true and the flag-string variable holds `v`,
the final argument vector is `v` split into tokens on runs of the ASCII space
byte (empty tokens discarded, order preserved) followed by the original
arguments; the flag strings `"-A -B"`, `"-A   -B"` and `"  -A -B  "` all
tokenize to `["-A", "-B"]`. -/
theorem flag_tokenization (env : Env)
    (spawn : List Nat → List (List Nat) → SpawnOutcome)
    (self rustc : List Nat) (rest : List (List Nat)) (v : List Nat)
    (hsi : should_instrument env = true)
    (hv : env "CARGO_LLVM_COV_FLAGS" = some v) :
    (try_run_wrapper (self :: rustc :: rest) env spawn).spawnCall =
      some (rustc, specTokens v ++ rest) ∧
    specTokens [45, 65, 32, 45, 66] = [[45, 65], [45, 66]] ∧
    specTokens [45, 65, 32, 32, 32, 45, 66] = [[45, 65], [45, 66]] ∧
    specTokens [32, 32, 45, 65, 32, 45, 66, 32, 32] = [[45, 65], [45, 66]] := by
  refine ⟨?_, by decide, by decide, by decide⟩
  rw [try_run_wrapper_cons, runStep_spawnCall, hsi]
  have hct : covFlagsTokens env = specTokens v := by
    unfold covFlagsTokens specTokens
    rw [hv]
    show List.filter (fun c => !c.isEmpty) (splitBytes 32 v) =
      List.filter (fun t => !t.isEmpty) (List.splitOn 32 v)
    rw [splitBytes_eq_splitOn]
  simp [hct]

/-- An environment for a covered compilation: session marker, crate name
`foo`, and flag string `"-A -B"`. -/
def envActive : Env := fun n =>
  if n = "CARGO_LLVM_COV" then some [49]
  else if n = "CARGO_CRATE_NAME" then some [102, 111, 111]
  else if n = "CARGO_LLVM_COV_FLAGS" then some [45, 65, 32, 45, 66]
  else none

/-- C3 witness at a concrete invocation: flags `"-A -B"` are prepended to the
original argument `"-O"`. -/
theorem flag_tokenization_witness :
    (try_run_wrapper [[119], [99, 99], [45, 79]] envActive spawnOk).spawnCall =
      some ([99, 99], [[45, 65], [45, 66], [45, 79]]) :=
  (flag_tokenization envActive spawnOk [119] [99, 99] [[45, 79]]
      [45, 65, 32, 45, 66] rfl rfl).1

/-- C7: when the gate decides true but the flag-string variable is absent,
flag injection produces zero flags and no error, and the final argument
vector equals the original argument vector. -/
theorem flags_absent_noop (env : Env)
    (spawn : List Nat → List (List Nat) → SpawnOutcome)
    (self rustc : List Nat) (rest : List (List Nat))
    (hsi : should_instrument env = true)
    (hv : env "CARGO_LLVM_COV_FLAGS" = none) :
    add_coverage_flags env rest = .ok rest ∧
    (try_run_wrapper (self :: rustc :: rest) env spawn).spawnCall =
      some (rustc, rest) := by
  have hct : covFlagsTokens env = [] := by
    unfold covFlagsTokens
    rw [hv]
  constructor
  · rw [add_coverage_flags_eq, hct]
    rfl
  · rw [try_run_wrapper_cons, runStep_spawnCall, hsi, hct]
    simp

/-- An environment with the session marker and crate name but no flag
string. -/
def envActiveNoFlags : Env := fun n =>
  if n = "CARGO_LLVM_COV" then some [49]
  else if n = "CARGO_CRATE_NAME" then some [102, 111, 111]
  else none

/-- C7 witness at a concrete invocation. -/
theorem flags_absent_noop_witness :
    add_coverage_flags envActiveNoFlags [[45, 79]] = .ok [[45, 79]] ∧
    (try_run_wrapper [[119], [99], [45, 79]] envActiveNoFlags
        spawnOk).spawnCall = some ([99], [[45, 79]]) :=
  flags_absent_noop envActiveNoFlags spawnOk [119] [99] [[45, 79]] rfl rfl

/-- C8: flag injection is total on Unix — byte-level splitting never fails —
while the non-Unix branch fails exactly when the flag string is present and
not valid UTF-8, and the only error it can produce is the invalid-encoding
error. -/
theorem flag_encoding_platforms (env : Env) (args : List (List Nat)) :
    exceptIsOk (add_coverage_flags env args) = true ∧
    (add_coverage_flags_nonunix env args = .error .invalidFlagEncoding ↔
      ∃ v, env "CARGO_LLVM_COV_FLAGS" = some v ∧ utf8Decode v = none) ∧
    (exceptIsOk (add_coverage_flags_nonunix env args) = false ↔
      add_coverage_flags_nonunix env args = .error .invalidFlagEncoding) := by
  refine ⟨?_, ?_, ?_⟩
  · rw [add_coverage_flags_eq]
    rfl
  · unfold add_coverage_flags_nonunix
    cases hv : env "CARGO_LLVM_COV_FLAGS" with
    | none => simp
    | some v =>
      cases hd : utf8Decode v with
      | none => simp [hd]
      | some cs => simp [hd]
  · unfold add_coverage_flags_nonunix
    cases env "CARGO_LLVM_COV_FLAGS" with
    | none => simp [exceptIsOk]
    | some v => cases hd : utf8Decode v <;> simp [exceptIsOk, hd]

/-- An environment with only the debug-logging marker set. -/
def envDbgOnly : Env :=
  fun n => if n = "CARGO_LLVM_COV_WRAPPER_DEBUG" then some [49] else none

/-- C9 counterexample: with the debug marker present but no crate-name or
package-name variable, the wrapper emits no diagnostic line at all, refuting
the claim that every invocation with the marker present emits exactly one. -/
theorem debug_line_counterexample :
    (envDbgOnly "CARGO_LLVM_COV_WRAPPER_DEBUG").isSome = true ∧
    (try_run_wrapper [[119], [99]] envDbgOnly spawnOk).debugLines = [] :=
  ⟨rfl, rfl⟩

/-- C9 (amended): for every invocation that supplies a delegate path, when
the debug marker is present and both the crate-name and package-name
variables are present, the wrapper emits exactly one diagnostic line,
containing the crate name, the package name, the primary-package flag
presence, and the gate's instrumentation decision. -/
theorem debug_line_emitted (env : Env)
    (spawn : List Nat → List (List Nat) → SpawnOutcome)
    (self rustc : List Nat) (rest : List (List Nat)) (c p : List Nat)
    (hd : (env "CARGO_LLVM_COV_WRAPPER_DEBUG").isSome = true)
    (hc : env "CARGO_CRATE_NAME" = some c)
    (hp : env "CARGO_PKG_NAME" = some p) :
    (try_run_wrapper (self :: rustc :: rest) env spawn).debugLines =
      [⟨c, p, (env "CARGO_PRIMARY_PACKAGE").isSome,
        should_instrument env⟩] := by
  rw [try_run_wrapper_cons, runStep_debugLines]
  unfold debugLinesOf
  rw [hd, hc, hp]
  simp

/-- An environment with the debug marker, crate name `foo`, and package name
`foo`. -/
def envDbgFull : Env := fun n =>
  if n = "CARGO_LLVM_COV_WRAPPER_DEBUG" then some [49]
  else if n = "CARGO_CRATE_NAME" then some [102, 111, 111]
  else if n = "CARGO_PKG_NAME" then some [102, 111, 111]
  else none

/-- C9 witness at a concrete invocation: exactly one debug line, recording
crate `foo`, package `foo`, no primary-package flag, gate decision false. -/
theorem debug_line_emitted_witness :
    (try_run_wrapper [[119], [99]] envDbgFull spawnOk).debugLines =
      [⟨[102, 111, 111], [102, 111, 111], false, false⟩] :=
  debug_line_emitted envDbgFull spawnOk [119] [99] []
    [102, 111, 111] [102, 111, 111] rfl rfl rfl

/-- C10: the dependency-coverage-mode marker `CARGO_LLVM_COV_DEP_COVERAGE`
is read nowhere: two environments that differ only at that variable yield
the same gate decision and identical wrapper behaviour on every argument
vector and every spawn behaviour. -/
theorem dep_coverage_marker_ignored (env1 env2 : Env)
    (h : ∀ n : String, n ≠ "CARGO_LLVM_COV_DEP_COVERAGE" → env1 n = env2 n) :
    should_instrument env1 = should_instrument env2 ∧
    ∀ (argv : List (List Nat))
      (spawn : List Nat → List (List Nat) → SpawnOutcome),
      try_run_wrapper argv env1 spawn = try_run_wrapper argv env2 spawn := by
  have e1 := h "CARGO_LLVM_COV" (by decide)
  have e2 := h "CARGO_CRATE_NAME" (by decide)
  have e3 := h "CARGO_PKG_NAME" (by decide)
  have e4 := h "CARGO_LLVM_COV_TARGET_ONLY" (by decide)
  have e5 := h "TARGET" (by decide)
  have e6 := h "CARGO_LLVM_COV_WRAPPER_DEBUG" (by decide)
  have e7 := h "CARGO_PRIMARY_PACKAGE" (by decide)
  have e8 := h "CARGO_LLVM_COV_FLAGS" (by decide)
  have hsi : should_instrument env1 = should_instrument env2 := by
    unfold should_instrument
    rw [e1, e2, e3, e4, e5]
  have hcov : covFlagsTokens env1 = covFlagsTokens env2 := by
    unfold covFlagsTokens
    rw [e8]
  have hdbg : debugLinesOf env1 = debugLinesOf env2 := by
    unfold debugLinesOf
    rw [e2, e3, e6, e7, hsi]
  refine ⟨hsi, ?_⟩
  intro argv spawn
  match argv with
  | [] => rfl
  | [_] => rfl
  | self :: rustc :: rest =>
    rw [try_run_wrapper_cons, try_run_wrapper_cons, hsi, hcov, hdbg]

/-- The empty environment with only the dependency-coverage marker added. -/
def envDepOnly : Env := fun n =>
  if n = "CARGO_LLVM_COV_DEP_COVERAGE" then some [49] else envEmpty n

/-- C10 witness: adding the dependency-coverage marker to the empty
environment changes neither the gate decision nor a concrete run. -/
theorem dep_coverage_marker_ignored_witness :
    should_instrument envEmpty = should_instrument envDepOnly ∧
    try_run_wrapper [[119], [99]] envEmpty spawnOk =
      try_run_wrapper [[119], [99]] envDepOnly spawnOk := by
  have h := dep_coverage_marker_ignored envEmpty envDepOnly (fun n hn => by
    unfold envDepOnly envEmpty
    rw [if_neg hn])
  exact ⟨h.1, h.2 [[119], [99]] spawnOk⟩
